import Mathlib

/-!
# Binary shader cache of `OpenGLESBinaryShaders.cpp`

A shallow embedding of the three functions of
`examples/OpenGLES/BinaryShaders/OpenGLESBinaryShaders.cpp` that implement the
compiled-program cache:

* `shaderProgramToBinary` (lines 110-131): export a linked program from the
  driver and persist it as `shaderformat.bin` + `shader.bin`;
* `loadShaderBinary` (lines 135-161): read the two files back, rebuild a
  program with `gl::ProgramBinary` and check its link status;
* the cache section of `initView` (line 207 and lines 242-249).

The application state is passed explicitly.  The GL driver and the shader
compiler are external collaborators: they are a record of response functions
(`Driver`), each reading the chronological list of calls issued so far, and
every call the application makes is appended to that list, so "calls X" and
"never calls X" are statements about the list.  The asset streams of the
framework (`getAssetStream`, `getWriteAssetStream`, `Stream::writeExact`,
`Stream::readToEnd`, `Stream::getSize`) are defined elsewhere in the SDK and
are modelled after the specification.

Every function returns the final state next to its outcome, also when it
throws, so that the state left behind by an exception can be inspected.
-/

namespace BinaryShaders

/-! ## Machine types -/

/-- One byte, `GLubyte`. -/
abbrev GLubyte := Fin 256

/-- Unsigned 32-bit integer, `GLenum`. -/
abbrev GLenum := Fin 4294967296

/-- Object name (program handle), `GLuint`.  No arithmetic is done on handles;
the only test is `if (program)` in the destructor. -/
abbrev GLuint := Nat

/-- Signed 32-bit integer, `GLint`. -/
abbrev GLint := { i : Int // -2147483648 ≤ i ∧ i ≤ 2147483647 }

/-- The constant `GL_FALSE`. -/
def GL_FALSE : Int := 0

/-- The size `sizeof(GLenum)` in bytes. -/
def sizeofGLenum : Nat := 4

/-- Line 31: `const char ShaderBinaryFileName[] = "shader.bin"`. -/
def ShaderBinaryFileName : String := "shader.bin"

/-- Line 32: `const char ShaderFormatFileName[] = "shaderformat.bin"`. -/
def ShaderFormatFileName : String := "shaderformat.bin"

/-- The conversion of `shaderStream->getSize()` (a `size_t`) to the `GLsizei`
parameter of `gl::ProgramBinary` (line 151): reduction to a signed 32-bit
value. -/
def toGLsizei (size : Nat) : Int :=
  ((size : Int) + 2147483648) % 4294967296 - 2147483648

/-! ## Calls to the external collaborators -/

/-- The calls the three functions make to the GL driver (`gl::...`) and to the
shader compiler (`pvr::utils::createShaderProgram`), with their arguments. -/
inductive Call
  /-- Call of `gl::GetIntegerv(GL_NUM_PROGRAM_BINARY_FORMATS, &formats)` -/
  | getIntegerv_NUM_PROGRAM_BINARY_FORMATS
  /-- Call of `gl::GetProgramiv(program, GL_PROGRAM_BINARY_LENGTH, &length)` -/
  | getProgramiv_PROGRAM_BINARY_LENGTH (program : GLuint)
  /-- Call of `gl::GetProgramBinary(program, bufSize, 0, &shaderformat, data)` -/
  | getProgramBinary (program : GLuint) (bufSize : Nat)
  /-- Call of `gl::CreateProgram()` -/
  | createProgram
  /-- Call of `gl::ProgramBinary(program, binaryFormat, binary, length)` -/
  | programBinary (program : GLuint) (binaryFormat : GLenum) (binary : List GLubyte) (length : Int)
  /-- Call of `gl::GetProgramiv(program, GL_LINK_STATUS, &status)` -/
  | getProgramiv_LINK_STATUS (program : GLuint)
  /-- Call of `gl::DeleteProgram(program)` -/
  | deleteProgram (program : GLuint)
  /-- Call of `pvr::utils::createShaderProgram(...)` (compile from source) -/
  | createShaderProgram
  deriving DecidableEq, Repr

/-- The external collaborators as deterministic response functions.  Each
response may depend on the whole list of calls issued before the one being
answered (first argument), which covers any stateful driver. -/
structure Driver where
  /-- value stored in `formats` by `GetIntegerv(GL_NUM_PROGRAM_BINARY_FORMATS)` -/
  numProgramBinaryFormats : List Call → GLint
  /-- value stored in `length` by `GetProgramiv(program, GL_PROGRAM_BINARY_LENGTH)` -/
  programBinaryLength : List Call → GLuint → GLint
  /-- format tag and bytes written by `GetProgramBinary(program, bufSize, ...)` -/
  getProgramBinary : List Call → GLuint → Nat → GLenum × List GLubyte
  /-- handle returned by `CreateProgram()` -/
  createProgram : List Call → GLuint
  /-- value stored in `status` by `GetProgramiv(program, GL_LINK_STATUS)` -/
  linkStatus : List Call → GLuint → GLint
  /-- handle returned by `pvr::utils::createShaderProgram(...)`, the compiler
  that turns the shader sources into a linked program handle -/
  createShaderProgram : List Call → GLuint

/-! ## Asset streams -/

/-- Modelled from the spec: the asset/storage layer (`pvr::Shell` asset
streams, defined outside this source file).  `files` is the map from
resource name to byte sequence; `writeLimit name` is the number of bytes the
persistence layer takes for `name` before it rejects the rest (disk full,
permissions), the spec's `WriteFailure`. -/
structure AssetStore where
  files : String → Option (List GLubyte)
  writeLimit : String → Nat

/-- Modelled from the spec: `getAssetStream(name, false)`, open-for-read,
"returns absent if resource does not exist".  A read stream is the byte
sequence of the resource, positioned at its start. -/
def getAssetStream (assets : AssetStore) (name : String) : Option (List GLubyte) :=
  assets.files name

/-- Modelled from the spec: `getWriteAssetStream(name)`, open-for-write,
"creates/overwrites": the resource exists and is empty afterwards. -/
def getWriteAssetStream (assets : AssetStore) (name : String) : AssetStore :=
  { assets with files := fun n => if n = name then some [] else assets.files n }

/-- Modelled from the spec: `Stream::writeExact(size, 1, data)` on a stream
opened for writing on `name`: appends `data`; when the layer does not take all
of it, what it took is kept and the call throws (`false`), the spec's
`WriteFailure` "if either destination cannot be written in full". -/
def writeExact (assets : AssetStore) (name : String) (data : List GLubyte) : Bool × AssetStore :=
  let old := (assets.files name).getD []
  let taken := data.take (assets.writeLimit name)
  (decide (data.length ≤ assets.writeLimit name),
   { assets with files := fun n => if n = name then some (old ++ taken) else assets.files n })

/-- Four bytes of a `GLenum` in memory (little-endian, the byte order of the
platforms the SDK targets); `writeExact(sizeof(GLenum), 1, &shaderformat)`
writes these. -/
def encodeGLenum (v : GLenum) : List GLubyte :=
  [⟨v.val % 256, Nat.mod_lt _ (by decide)⟩,
   ⟨v.val / 256 % 256, Nat.mod_lt _ (by decide)⟩,
   ⟨v.val / 65536 % 256, Nat.mod_lt _ (by decide)⟩,
   ⟨v.val / 16777216 % 256, Nat.mod_lt _ (by decide)⟩]

/-- The `GLenum` whose four bytes in memory are `b0 b1 b2 b3`. -/
def decodeGLenum (b0 b1 b2 b3 : GLubyte) : GLenum :=
  ⟨b0.val + 256 * b1.val + 65536 * b2.val + 16777216 * b3.val, by omega⟩

/-- Modelled from the spec: `Stream::readToEnd<GLenum>()`: the stream's bytes
reinterpreted as `GLenum` elements, `size / sizeof(GLenum)` of them (a
trailing group of fewer than four bytes gives no element). -/
def readToEnd_GLenum : List GLubyte → List GLenum
  | b0 :: b1 :: b2 :: b3 :: rest => decodeGLenum b0 b1 b2 b3 :: readToEnd_GLenum rest
  | _ => []

/-- Modelled from the spec: `Stream::readToEnd<GLubyte>()`: all bytes of the
stream. -/
def readToEnd_GLubyte (stream : List GLubyte) : List GLubyte := stream

/-- Modelled from the spec: `Stream::getSize()`: the number of bytes of the
resource. -/
def getSize (stream : List GLubyte) : Nat := stream.length

/-! ## Application state and outcomes -/

/-- The exceptions the three functions can raise. -/
inductive Exception
  /-- Exception `pvr::InvalidOperationError(message)` -/
  | InvalidOperationError (message : String)
  /-- Exception `pvr::InvalidDataError(message)` -/
  | InvalidDataError (message : String)
  /-- thrown by `writeExact` when the data is not written in full -/
  | FileIOError
  /-- Exception `std::length_error` of `std::vector::resize` -/
  | length_error
  deriving DecidableEq, Repr

/-- How a call ends: it returns a value, throws, or executes an operation
whose behaviour C++ leaves undefined. -/
inductive Outcome (α : Type)
  | returned (value : α)
  | threw (e : Exception)
  | undefinedBehaviour
  deriving DecidableEq, Repr

/-- Lines 37-73, `struct DeviceResources`, restricted to the program handle;
the context, the buffers, the textures and the UI renderer play no part in the
cache. -/
structure DeviceResources where
  program : GLuint
  deriving DecidableEq, Repr

/-- The state of `class OpenGLESBinaryShaders` the cache functions touch:
`_deviceResources`, the asset store behind the shell's asset streams, and the
calls issued so far to the driver and the compiler. -/
structure OpenGLESBinaryShaders where
  deviceResources : DeviceResources
  assets : AssetStore
  calls : List Call

/-- Append a call to the list of calls issued. -/
def OpenGLESBinaryShaders.issue (app : OpenGLESBinaryShaders) (c : Call) : OpenGLESBinaryShaders :=
  { app with calls := app.calls ++ [c] }

/-- The message of line 117. -/
def noBinaryFormatsMessage : String := "Driver does not support any binary formats."

/-- The message of line 157. -/
def shaderBinaryNotValidMessage : String :=
  "Shader Binary not Valid. Consider deleting the existing shader.bin shaderformat.bin files if they were generated with a different driver version."

/-- The message of line 248. -/
def cannotLoadMessage : String := "Cannot Load Shader Binary"

/-- Contents of `binaryShaders` after `binaryShaders.resize(n)` (line 123, `n`
zero bytes) and `gl::GetProgramBinary(program, n, 0, &shaderformat,
binaryShaders.data())` (line 124), the driver having written `written`: the
driver writes at most `bufSize = n` bytes, from the start of the buffer. -/
def fillBuffer (n : Nat) (written : List GLubyte) : List GLubyte :=
  written.take n ++ List.replicate (n - written.length) 0

/-! ## The three functions -/

/-- Lines 110-131, `void OpenGLESBinaryShaders::shaderProgramToBinary(GLuint program)`. -/
def shaderProgramToBinary (d : Driver) (program : GLuint) (app : OpenGLESBinaryShaders) :
    Outcome Unit × OpenGLESBinaryShaders :=
  -- 115-116
  let formats := d.numProgramBinaryFormats app.calls
  let app := app.issue .getIntegerv_NUM_PROGRAM_BINARY_FORMATS
  -- 117
  if formats.val < 1 then
    (.threw (.InvalidOperationError noBinaryFormatsMessage), app)
  else
    -- 119-121
    let length := d.programBinaryLength app.calls program
    let app := app.issue (.getProgramiv_PROGRAM_BINARY_LENGTH program)
    -- 123: a negative `length` converts to a size above `max_size()`
    if length.val < 0 then
      (.threw .length_error, app)
    else
      let n := length.val.toNat
      -- 124
      let exported := d.getProgramBinary app.calls program n
      let app := app.issue (.getProgramBinary program n)
      let shaderformat := exported.1
      let binaryShaders := fillBuffer n exported.2
      -- 126-127
      let opened := getWriteAssetStream app.assets ShaderFormatFileName
      let w1 := writeExact opened ShaderFormatFileName (encodeGLenum shaderformat)
      if w1.1 = false then
        (.threw .FileIOError, { app with assets := w1.2 })
      else
        -- 129-130
        let opened := getWriteAssetStream w1.2 ShaderBinaryFileName
        let w2 := writeExact opened ShaderBinaryFileName binaryShaders
        if w2.1 = false then
          (.threw .FileIOError, { app with assets := w2.2 })
        else
          (.returned (), { app with assets := w2.2 })

/-- Lines 135-161, `bool OpenGLESBinaryShaders::loadShaderBinary()`. -/
def loadShaderBinary (d : Driver) (app : OpenGLESBinaryShaders) :
    Outcome Bool × OpenGLESBinaryShaders :=
  -- 139-141
  match getAssetStream app.assets ShaderFormatFileName with
  | none => (.returned false, app)
  | some formatStream =>
    -- 143: `*formatStream->readToEnd<GLenum>().data()` reads element 0 of the
    -- vector, whatever its size
    match (readToEnd_GLenum formatStream).head? with
    | none => (.undefinedBehaviour, app)
    | some shaderformat =>
      -- 145-147
      match getAssetStream app.assets ShaderBinaryFileName with
      | none => (.returned false, app)
      | some shaderStream =>
        -- 149
        let handle := d.createProgram app.calls
        let app := { app.issue .createProgram with deviceResources := { program := handle } }
        -- 151
        let app := app.issue
          (.programBinary handle shaderformat (readToEnd_GLubyte shaderStream)
            (toGLsizei (getSize shaderStream)))
        -- 153-154
        let status := d.linkStatus app.calls handle
        let app := app.issue (.getProgramiv_LINK_STATUS handle)
        -- 155-160
        if GL_FALSE = status.val then
          (.threw (.InvalidDataError shaderBinaryNotValidMessage), app)
        else
          (.returned true, app)

/-- Lines 53-56 of `~DeviceResources()`, the part that concerns the program
handle: `if (program) { gl::DeleteProgram(program); } program = 0;`.  Returns
the calls issued, extended, and the handle field afterwards. -/
def DeviceResources.destroy (r : DeviceResources) (calls : List Call) : List Call × DeviceResources :=
  (if r.program ≠ 0 then calls ++ [.deleteProgram r.program] else calls, { program := 0 })

/-- Line 207, `_deviceResources = std::make_unique<DeviceResources>()`: the
assignment destroys the `DeviceResources` held so far, which runs
`~DeviceResources` on it (lines 53-56: `DeleteProgram` of a non-zero handle),
and the object held afterwards comes from the constructor of line 52, with
`program` 0.  An empty `unique_ptr` is the state whose `program` is 0: there
is no handle to delete and no call is issued. -/
def renewDeviceResources (app : OpenGLESBinaryShaders) : OpenGLESBinaryShaders :=
  { app with
    deviceResources := { program := 0 }
    calls := (DeviceResources.destroy app.deviceResources app.calls).1 }

/-- The cache section of `pvr::Result OpenGLESBinaryShaders::initView()`:
line 207 (`renewDeviceResources`) and lines 242-249.  The outcome
`returned ()` stands for control reaching line 251.  The context, buffer and
UI-renderer set-up of lines 208-237 and what follows line 249 are outside the
embedding: they write neither the two cache files nor
`_deviceResources->program`. -/
def initView (d : Driver) (app : OpenGLESBinaryShaders) :
    Outcome Unit × OpenGLESBinaryShaders :=
  -- 207
  let app := renewDeviceResources app
  -- 242
  match loadShaderBinary d app with
  | (.threw e, app) => (.threw e, app)
  | (.undefinedBehaviour, app) => (.undefinedBehaviour, app)
  | (.returned true, app) => (.returned (), app)
  | (.returned false, app) =>
    -- 244
    let program := d.createShaderProgram app.calls
    let app := app.issue .createShaderProgram
    -- 245
    match shaderProgramToBinary d program app with
    | (.threw e, app) => (.threw e, app)
    | (.undefinedBehaviour, app) => (.undefinedBehaviour, app)
    | (.returned (), app) =>
      -- 246
      let app := app.issue (.deleteProgram program)
      -- 248
      match loadShaderBinary d app with
      | (.threw e, app) => (.threw e, app)
      | (.undefinedBehaviour, app) => (.undefinedBehaviour, app)
      | (.returned true, app) => (.returned (), app)
      | (.returned false, app) => (.threw (.InvalidOperationError cannotLoadMessage), app)

/-- The calls lines 244-246 issue when the store gets through: the compile,
the three queries of `shaderProgramToBinary` and `gl::DeleteProgram(program)`,
for the compiled handle `program` and an exported binary of `n` bytes. -/
def missPathCalls (program : GLuint) (n : Nat) : List Call :=
  [.createShaderProgram, .getIntegerv_NUM_PROGRAM_BINARY_FORMATS,
   .getProgramiv_PROGRAM_BINARY_LENGTH program, .getProgramBinary program n,
   .deleteProgram program]

/-! ## Concrete inputs used by the closed statements below -/

/-- A driver that supports one binary format, exports tag 7 and the bytes
`1 2 3` for every program, hands out handle 5 from the compiler and handle 9
from `CreateProgram`, and links every imported binary. -/
def sampleDriver : Driver where
  numProgramBinaryFormats := fun _ => ⟨1, by decide⟩
  programBinaryLength := fun _ _ => ⟨3, by decide⟩
  getProgramBinary := fun _ _ _ => (7, [1, 2, 3])
  createProgram := fun _ => 9
  linkStatus := fun _ _ => ⟨1, by decide⟩
  createShaderProgram := fun _ => 5

/-- An empty asset store that takes 1000 bytes per write. -/
def emptyStore : AssetStore where
  files := fun _ => none
  writeLimit := fun _ => 1000

/-- The application before `initView`: no program, empty cache, no call issued. -/
def freshApp : OpenGLESBinaryShaders where
  deviceResources := { program := 0 }
  assets := emptyStore
  calls := []


/-- The application with an empty cache on a storage layer that takes no byte
(disk full). -/
def fullDiskApp : OpenGLESBinaryShaders where
  deviceResources := { program := 0 }
  assets := { files := fun _ => none, writeLimit := fun _ => 0 }
  calls := []

/-- A driver like `sampleDriver` whose export depends on the program: tag 7
and bytes `1 2 3 4 5` for program 5, tag 8 and bytes `6 7` for any other. -/
def twoProgramDriver : Driver where
  numProgramBinaryFormats := fun _ => ⟨1, by decide⟩
  programBinaryLength := fun _ p => if p = 5 then ⟨5, by decide⟩ else ⟨2, by decide⟩
  getProgramBinary := fun _ p _ => if p = 5 then (7, [1, 2, 3, 4, 5]) else (8, [6, 7])
  createProgram := fun _ => 9
  linkStatus := fun _ _ => ⟨1, by decide⟩
  createShaderProgram := fun _ => 5

/-- A driver like `sampleDriver` that rejects every imported binary: the link
status is `GL_FALSE`. -/
def rejectingDriver : Driver where
  numProgramBinaryFormats := fun _ => ⟨1, by decide⟩
  programBinaryLength := fun _ _ => ⟨3, by decide⟩
  getProgramBinary := fun _ _ _ => (7, [1, 2, 3])
  createProgram := fun _ => 9
  linkStatus := fun _ _ => ⟨0, by decide⟩
  createShaderProgram := fun _ => 5

/-- The application with a complete cache on disk (tag 7, bytes `0 0 0`) and
no program yet. -/
def cachedApp : OpenGLESBinaryShaders where
  deviceResources := { program := 0 }
  assets :=
    { files := fun n =>
        if n = ShaderFormatFileName then some [7, 0, 0, 0]
        else if n = ShaderBinaryFileName then some [0, 0, 0] else none,
      writeLimit := fun _ => 1000 }
  calls := []

/-- The application entering `initView` while it still holds a
`DeviceResources` with the program handle 7, on an empty cache. -/
def relaunchedApp : OpenGLESBinaryShaders where
  deviceResources := { program := 7 }
  assets := emptyStore
  calls := []

/-- The application with `shader.bin` on disk and no `shaderformat.bin`. -/
def binaryOnlyApp : OpenGLESBinaryShaders where
  deviceResources := { program := 0 }
  assets :=
    { files := fun n => if n = ShaderBinaryFileName then some [1, 2, 3] else none,
      writeLimit := fun _ => 1000 }
  calls := []

/-- The application with a three-byte `shaderformat.bin` and a `shader.bin`. -/
def shortFormatApp : OpenGLESBinaryShaders where
  deviceResources := { program := 0 }
  assets :=
    { files := fun n =>
        if n = ShaderFormatFileName then some [7, 0, 0]
        else if n = ShaderBinaryFileName then some [1, 2, 3] else none,
      writeLimit := fun _ => 1000 }
  calls := []

/-! ## Auxiliary facts -/

/-- Reading back what line 127 wrote gives the tag, whatever follows it. -/
theorem readToEnd_GLenum_encodeGLenum (v : GLenum) (extra : List GLubyte) :
    (readToEnd_GLenum (encodeGLenum v ++ extra)).head? = some v := by
  have hv := v.isLt
  simp only [encodeGLenum, List.cons_append, List.nil_append, readToEnd_GLenum, List.head?_cons,
    decodeGLenum]
  congr 1
  apply Fin.ext
  simp only
  omega

/-- The number of elements of `readToEnd<GLenum>()` is the size divided by four. -/
theorem readToEnd_GLenum_length (fc : List GLubyte) :
    (readToEnd_GLenum fc).length = fc.length / 4 := by
  induction fc using readToEnd_GLenum.induct with
  | case1 b0 b1 b2 b3 rest ih =>
    simp only [readToEnd_GLenum, List.length_cons, ih]
    omega
  | case2 fc h =>
    match fc, h with
    | [], _ => simp [readToEnd_GLenum]
    | [_], _ => simp [readToEnd_GLenum]
    | [_, _], _ => simp [readToEnd_GLenum]
    | [_, _, _], _ => simp [readToEnd_GLenum]
    | b0 :: b1 :: b2 :: b3 :: rest, h => exact absurd rfl (h b0 b1 b2 b3 rest)

/-- Fewer than four bytes give no element 0. -/
theorem readToEnd_GLenum_head_none (fc : List GLubyte) (h : fc.length < 4) :
    (readToEnd_GLenum fc).head? = none := by
  have hl := readToEnd_GLenum_length fc
  have h0 : fc.length / 4 = 0 := by omega
  rw [h0] at hl
  rw [List.length_eq_zero.mp hl]
  rfl

/-- A size that fits a `GLint` is not changed by the conversion to `GLsizei`. -/
theorem toGLsizei_of_le (n : Nat) (h : (n : Int) ≤ 2147483647) : toGLsizei n = (n : Int) := by
  unfold toGLsizei
  omega


/-- The four bytes of a tag read back as exactly one element, the tag. -/
theorem readToEnd_GLenum_encodeGLenum_eq (v : GLenum) :
    readToEnd_GLenum (encodeGLenum v) = [v] := by
  have hv := v.isLt
  simp only [encodeGLenum, readToEnd_GLenum, decodeGLenum]
  congr 1
  apply Fin.ext
  simp only
  omega

/-- A store of the export `(tag, bytes)` with format support and writes taken
in full: it returns, issues its three queries, and leaves the two files
holding the four bytes of `tag` and `bytes`. -/
theorem shaderProgramToBinary_returned (d : Driver) (program : GLuint)
    (app : OpenGLESBinaryShaders) (tag : GLenum) (bytes : List GLubyte)
    (hformats : 1 ≤ (d.numProgramBinaryFormats app.calls).val)
    (hlength : (d.programBinaryLength
      (app.calls ++ [.getIntegerv_NUM_PROGRAM_BINARY_FORMATS]) program).val = bytes.length)
    (hexport : d.getProgramBinary
      (app.calls ++ [.getIntegerv_NUM_PROGRAM_BINARY_FORMATS,
        .getProgramiv_PROGRAM_BINARY_LENGTH program]) program bytes.length = (tag, bytes))
    (hwriteFormat : sizeofGLenum ≤ app.assets.writeLimit ShaderFormatFileName)
    (hwriteBinary : bytes.length ≤ app.assets.writeLimit ShaderBinaryFileName) :
    (shaderProgramToBinary d program app).1 = .returned () ∧
    (shaderProgramToBinary d program app).2.calls =
      app.calls ++ [.getIntegerv_NUM_PROGRAM_BINARY_FORMATS,
        .getProgramiv_PROGRAM_BINARY_LENGTH program, .getProgramBinary program bytes.length] ∧
    (shaderProgramToBinary d program app).2.deviceResources = app.deviceResources ∧
    (shaderProgramToBinary d program app).2.assets.files ShaderFormatFileName
      = some (encodeGLenum tag) ∧
    (shaderProgramToBinary d program app).2.assets.files ShaderBinaryFileName = some bytes ∧
    (shaderProgramToBinary d program app).2.assets.writeLimit = app.assets.writeLimit := by
  have hne : ShaderBinaryFileName ≠ ShaderFormatFileName := by decide
  have hne2 : ShaderFormatFileName ≠ ShaderBinaryFileName := by decide
  have h1 : ¬ (d.numProgramBinaryFormats app.calls).val < 1 := by omega
  have h2 : ¬ (d.programBinaryLength
      (app.calls ++ [.getIntegerv_NUM_PROGRAM_BINARY_FORMATS]) program).val < 0 := by omega
  have h3 : (d.programBinaryLength
      (app.calls ++ [.getIntegerv_NUM_PROGRAM_BINARY_FORMATS]) program).val.toNat
        = bytes.length := by omega
  have h4 : (encodeGLenum tag).length ≤ app.assets.writeLimit ShaderFormatFileName := hwriteFormat
  simp only [shaderProgramToBinary, OpenGLESBinaryShaders.issue, h1, h2, h3, if_false,
    List.append_assoc, List.singleton_append, hexport, writeExact, getWriteAssetStream,
    fillBuffer, h4, hwriteBinary, decide_True, List.take_length, Nat.sub_self,
    List.replicate_zero, List.append_nil, if_true, Option.getD_some, List.nil_append,
    List.take_of_length_le, hne, hne2]
  simp [hne2]


/-- What `loadShaderBinary` does when the format file yields a tag and the
binary file is present. -/
theorem loadShaderBinary_present (d : Driver) (app : OpenGLESBinaryShaders)
    (fc bc : List GLubyte) (tag : GLenum)
    (hf : app.assets.files ShaderFormatFileName = some fc)
    (htag : (readToEnd_GLenum fc).head? = some tag)
    (hb : app.assets.files ShaderBinaryFileName = some bc) :
    loadShaderBinary d app =
      (if GL_FALSE = (d.linkStatus
            (app.calls ++ [.createProgram,
              .programBinary (d.createProgram app.calls) tag bc (toGLsizei bc.length)])
            (d.createProgram app.calls)).val
        then .threw (.InvalidDataError shaderBinaryNotValidMessage)
        else .returned true,
       { deviceResources := { program := d.createProgram app.calls },
         assets := app.assets,
         calls := app.calls ++ [.createProgram,
           .programBinary (d.createProgram app.calls) tag bc (toGLsizei bc.length),
           .getProgramiv_LINK_STATUS (d.createProgram app.calls)] }) := by
  simp only [loadShaderBinary, getAssetStream, hf, htag, hb, OpenGLESBinaryShaders.issue,
    readToEnd_GLubyte, getSize, List.append_assoc, List.singleton_append]
  split <;> rfl

/-- A load that returns `false` has changed nothing. -/
theorem loadShaderBinary_false_unchanged (d : Driver) (app : OpenGLESBinaryShaders)
    (h : (loadShaderBinary d app).1 = .returned false) :
    loadShaderBinary d app = (.returned false, app) := by
  cases hF : app.assets.files ShaderFormatFileName with
  | none => simp [loadShaderBinary, getAssetStream, hF]
  | some fc =>
    cases hT : (readToEnd_GLenum fc).head? with
    | none => simp [loadShaderBinary, getAssetStream, hF, hT] at h
    | some tag =>
      cases hB : app.assets.files ShaderBinaryFileName with
      | none => simp [loadShaderBinary, getAssetStream, hF, hT, hB]
      | some bc =>
        rw [loadShaderBinary_present d app fc bc tag hF hT hB] at h
        simp only at h
        split at h <;> simp at h

/-- The calls a load issues: none, or the three of the rebuild; never one of
the store or of the compiler.  It leaves the asset store as it is. -/
theorem loadShaderBinary_calls (d : Driver) (app : OpenGLESBinaryShaders) :
    ∃ issued, (loadShaderBinary d app).2.calls = app.calls ++ issued ∧
      Call.createShaderProgram ∉ issued ∧
      Call.getIntegerv_NUM_PROGRAM_BINARY_FORMATS ∉ issued ∧
      (loadShaderBinary d app).2.assets = app.assets := by
  cases hF : app.assets.files ShaderFormatFileName with
  | none => exact ⟨[], by simp [loadShaderBinary, getAssetStream, hF]⟩
  | some fc =>
    cases hT : (readToEnd_GLenum fc).head? with
    | none => exact ⟨[], by simp [loadShaderBinary, getAssetStream, hF, hT]⟩
    | some tag =>
      cases hB : app.assets.files ShaderBinaryFileName with
      | none => exact ⟨[], by simp [loadShaderBinary, getAssetStream, hF, hT, hB]⟩
      | some bc =>
        rw [loadShaderBinary_present d app fc bc tag hF hT hB]
        exact ⟨_, rfl, by simp, by simp, rfl⟩

/-- The calls a store issues start with the format-count query and never
include the compiler. -/
theorem shaderProgramToBinary_calls (d : Driver) (program : GLuint)
    (app : OpenGLESBinaryShaders) :
    ∃ more, (shaderProgramToBinary d program app).2.calls =
        app.calls ++ Call.getIntegerv_NUM_PROGRAM_BINARY_FORMATS :: more ∧
      Call.createShaderProgram ∉ more := by
  unfold shaderProgramToBinary
  simp only [OpenGLESBinaryShaders.issue, List.append_assoc, List.singleton_append]
  split
  · exact ⟨[], by simp⟩
  · split
    · exact ⟨_, rfl, by simp⟩
    · split
      · exact ⟨_, rfl, by simp⟩
      · split
        · exact ⟨_, rfl, by simp⟩
        · exact ⟨_, rfl, by simp⟩


/-- A miss: the format file is absent, or it yields a tag and the binary file
is absent.  Then the load returns `false` and the state is untouched. -/
theorem loadShaderBinary_miss (d : Driver) (app : OpenGLESBinaryShaders)
    (h : app.assets.files ShaderFormatFileName = none ∨
      (∃ fc, app.assets.files ShaderFormatFileName = some fc ∧ sizeofGLenum ≤ fc.length) ∧
        app.assets.files ShaderBinaryFileName = none) :
    loadShaderBinary d app = (.returned false, app) := by
  rcases h with hF | ⟨⟨fc, hF, hlen⟩, hB⟩
  · simp [loadShaderBinary, getAssetStream, hF]
  · match fc, hlen, hF with
    | b0 :: b1 :: b2 :: b3 :: rest, _, hF =>
      simp [loadShaderBinary, getAssetStream, hF, hB, readToEnd_GLenum]

/-- The load after a successful store submits what the driver exported. -/
theorem store_then_load_calls (d : Driver) (app : OpenGLESBinaryShaders)
    (program : GLuint) (tag : GLenum) (bytes : List GLubyte)
    (hformats : 1 ≤ (d.numProgramBinaryFormats app.calls).val)
    (hlength : (d.programBinaryLength
      (app.calls ++ [.getIntegerv_NUM_PROGRAM_BINARY_FORMATS]) program).val = bytes.length)
    (hexport : d.getProgramBinary
      (app.calls ++ [.getIntegerv_NUM_PROGRAM_BINARY_FORMATS,
        .getProgramiv_PROGRAM_BINARY_LENGTH program]) program bytes.length = (tag, bytes))
    (hwriteFormat : sizeofGLenum ≤ app.assets.writeLimit ShaderFormatFileName)
    (hwriteBinary : bytes.length ≤ app.assets.writeLimit ShaderBinaryFileName) :
    (loadShaderBinary d (shaderProgramToBinary d program app).2).2.calls =
      (shaderProgramToBinary d program app).2.calls ++
        [.createProgram,
         .programBinary (d.createProgram (shaderProgramToBinary d program app).2.calls)
            tag bytes (bytes.length : Int),
         .getProgramiv_LINK_STATUS
            (d.createProgram (shaderProgramToBinary d program app).2.calls)] := by
  obtain ⟨-, -, -, hF, hB, -⟩ := shaderProgramToBinary_returned d program app tag bytes
    hformats hlength hexport hwriteFormat hwriteBinary
  have htag : (readToEnd_GLenum (encodeGLenum tag)).head? = some tag := by
    simpa using readToEnd_GLenum_encodeGLenum tag []
  have hsize : toGLsizei bytes.length = (bytes.length : Int) := by
    apply toGLsizei_of_le
    have := (d.programBinaryLength
      (app.calls ++ [.getIntegerv_NUM_PROGRAM_BINARY_FORMATS]) program).property.2
    omega
  rw [loadShaderBinary_present d _ _ _ tag hF htag hB, hsize]

/-- Line 207 adds at most the deletion of the handle held before, and leaves
the asset store as it is. -/
theorem renewDeviceResources_calls (app : OpenGLESBinaryShaders) :
    ∃ pre, (renewDeviceResources app).calls = app.calls ++ pre ∧
      Call.createShaderProgram ∉ pre ∧
      Call.getIntegerv_NUM_PROGRAM_BINARY_FORMATS ∉ pre ∧
      (renewDeviceResources app).assets = app.assets := by
  by_cases h : app.deviceResources.program ≠ 0
  · exact ⟨[.deleteProgram app.deviceResources.program],
      by simp [renewDeviceResources, DeviceResources.destroy, h], by simp, by simp, rfl⟩
  · exact ⟨[], by simp [renewDeviceResources, DeviceResources.destroy, h],
      by simp, by simp, rfl⟩

/-- A hit at a concrete input: with a complete cache that the driver links,
`initView` issues the three calls of one load and nothing else. -/
theorem initView_on_cached_binary :
    (initView sampleDriver cachedApp).1 = .returned () ∧
    (initView sampleDriver cachedApp).2.calls =
      [.createProgram, .programBinary 9 7 [0, 0, 0] 3, .getProgramiv_LINK_STATUS 9] := by
  decide

/-! ## The claims -/

/-- C1 (round trip of store then load).  Let the driver export of `program`
be `(tag, bytes)`: the length query reports `bytes.length` and
`GetProgramBinary` yields `tag` and `bytes`.  If the driver supports at least
one binary format and both writes are taken in full, then
`shaderProgramToBinary` returns, and `loadShaderBinary` run on the resulting
state issues `CreateProgram`, then `ProgramBinary` with exactly `tag`, exactly
`bytes` and length `bytes.length`, then the link-status query. -/
theorem C1_store_then_load_round_trip (d : Driver) (app : OpenGLESBinaryShaders)
    (program : GLuint) (tag : GLenum) (bytes : List GLubyte)
    (hformats : 1 ≤ (d.numProgramBinaryFormats app.calls).val)
    (hlength : (d.programBinaryLength
      (app.calls ++ [.getIntegerv_NUM_PROGRAM_BINARY_FORMATS]) program).val = bytes.length)
    (hexport : d.getProgramBinary
      (app.calls ++ [.getIntegerv_NUM_PROGRAM_BINARY_FORMATS,
        .getProgramiv_PROGRAM_BINARY_LENGTH program]) program bytes.length = (tag, bytes))
    (hwriteFormat : sizeofGLenum ≤ app.assets.writeLimit ShaderFormatFileName)
    (hwriteBinary : bytes.length ≤ app.assets.writeLimit ShaderBinaryFileName) :
    (shaderProgramToBinary d program app).1 = .returned () ∧
    (loadShaderBinary d (shaderProgramToBinary d program app).2).2.calls =
      (shaderProgramToBinary d program app).2.calls ++
        [.createProgram,
         .programBinary (d.createProgram (shaderProgramToBinary d program app).2.calls)
            tag bytes (bytes.length : Int),
         .getProgramiv_LINK_STATUS
            (d.createProgram (shaderProgramToBinary d program app).2.calls)] :=
  ⟨(shaderProgramToBinary_returned d program app tag bytes
      hformats hlength hexport hwriteFormat hwriteBinary).1,
   store_then_load_calls d app program tag bytes
      hformats hlength hexport hwriteFormat hwriteBinary⟩

/-- C1 at a concrete input: `sampleDriver` exports `(7, [1, 2, 3])` for
program 5, and the load after the store submits tag 7, bytes `1 2 3` and
length 3 under the handle 9. -/
theorem C1_store_then_load_round_trip_witness :
    (shaderProgramToBinary sampleDriver 5 freshApp).1 = .returned () ∧
    (loadShaderBinary sampleDriver (shaderProgramToBinary sampleDriver 5 freshApp).2).2.calls =
      (shaderProgramToBinary sampleDriver 5 freshApp).2.calls ++
        [.createProgram, .programBinary 9 7 [1, 2, 3] 3, .getProgramiv_LINK_STATUS 9] :=
  C1_store_then_load_round_trip sampleDriver freshApp 5 7 [1, 2, 3]
    (by decide) (by decide) (by decide) (by decide) (by decide)

/-- C2 (miss on absence), evaluated where it fails.  A store whose format
write is rejected leaves `shaderformat.bin` present and empty and `shader.bin`
absent; on that state `loadShaderBinary` does not return `false`: line 143
reads element 0 of an empty vector. -/
theorem C2_truncated_format_file_is_not_a_miss :
    (shaderProgramToBinary sampleDriver 5 fullDiskApp).1 = .threw .FileIOError ∧
    (shaderProgramToBinary sampleDriver 5 fullDiskApp).2.assets.files ShaderFormatFileName
      = some [] ∧
    (shaderProgramToBinary sampleDriver 5 fullDiskApp).2.assets.files ShaderBinaryFileName
      = none ∧
    (loadShaderBinary sampleDriver (shaderProgramToBinary sampleDriver 5 fullDiskApp).2).1
      = .undefinedBehaviour := by
  decide

/-- C3 (store fails exactly on missing format support, and atomically).
`shaderProgramToBinary` raises `InvalidOperationError("Driver does not support
any binary formats.")` if and only if the driver reports fewer than one binary
format, whether or not writes would succeed; and whenever it raises that error
the asset store after the call is the asset store before it. -/
theorem C3_store_fails_exactly_without_formats (d : Driver) (program : GLuint)
    (app : OpenGLESBinaryShaders) :
    ((shaderProgramToBinary d program app).1
        = .threw (.InvalidOperationError noBinaryFormatsMessage) ↔
      (d.numProgramBinaryFormats app.calls).val < 1) ∧
    ((shaderProgramToBinary d program app).1
        = .threw (.InvalidOperationError noBinaryFormatsMessage) →
      (shaderProgramToBinary d program app).2.assets = app.assets) := by
  by_cases hf : (d.numProgramBinaryFormats app.calls).val < 1
  · simp [shaderProgramToBinary, hf, OpenGLESBinaryShaders.issue]
  · have hne : (shaderProgramToBinary d program app).1
        ≠ .threw (.InvalidOperationError noBinaryFormatsMessage) := by
      simp only [shaderProgramToBinary, hf, if_false]
      split
      · simp
      · split
        · simp
        · split <;> simp
    exact ⟨⟨fun h => absurd h hne, fun h => absurd h hf⟩, fun h => absurd h hne⟩


/-- C4 (overwrite leaves no residue).  Two stores in a row, of programs whose
exports are `(tag1, bytes1)` and `(tag2, bytes2)`, with format support and
writes taken in full at both: both return; after the second,
`shaderformat.bin` holds exactly the `sizeof(GLenum) = 4` bytes that encode
`tag2`, `shader.bin` holds exactly `bytes2`, whatever the length of `bytes1`,
and a following `loadShaderBinary` submits `tag2`, `bytes2` and
`bytes2.length` to `ProgramBinary`. -/
theorem C4_overwrite_leaves_no_residue (d : Driver) (app : OpenGLESBinaryShaders)
    (program1 program2 : GLuint) (tag1 tag2 : GLenum) (bytes1 bytes2 : List GLubyte)
    (hformats1 : 1 ≤ (d.numProgramBinaryFormats app.calls).val)
    (hlength1 : (d.programBinaryLength
      (app.calls ++ [.getIntegerv_NUM_PROGRAM_BINARY_FORMATS]) program1).val = bytes1.length)
    (hexport1 : d.getProgramBinary
      (app.calls ++ [.getIntegerv_NUM_PROGRAM_BINARY_FORMATS,
        .getProgramiv_PROGRAM_BINARY_LENGTH program1]) program1 bytes1.length = (tag1, bytes1))
    (hformats2 : 1 ≤ (d.numProgramBinaryFormats
      (shaderProgramToBinary d program1 app).2.calls).val)
    (hlength2 : (d.programBinaryLength
      ((shaderProgramToBinary d program1 app).2.calls ++
        [.getIntegerv_NUM_PROGRAM_BINARY_FORMATS]) program2).val = bytes2.length)
    (hexport2 : d.getProgramBinary
      ((shaderProgramToBinary d program1 app).2.calls ++
        [.getIntegerv_NUM_PROGRAM_BINARY_FORMATS,
          .getProgramiv_PROGRAM_BINARY_LENGTH program2]) program2 bytes2.length = (tag2, bytes2))
    (hwriteFormat : sizeofGLenum ≤ app.assets.writeLimit ShaderFormatFileName)
    (hwriteBinary1 : bytes1.length ≤ app.assets.writeLimit ShaderBinaryFileName)
    (hwriteBinary2 : bytes2.length ≤ app.assets.writeLimit ShaderBinaryFileName) :
    (shaderProgramToBinary d program1 app).1 = .returned () ∧
    (shaderProgramToBinary d program1 app).2.assets.files ShaderBinaryFileName = some bytes1 ∧
    (shaderProgramToBinary d program2 (shaderProgramToBinary d program1 app).2).1
      = .returned () ∧
    (shaderProgramToBinary d program2 (shaderProgramToBinary d program1 app).2).2.assets.files
      ShaderFormatFileName = some (encodeGLenum tag2) ∧
    (encodeGLenum tag2).length = sizeofGLenum ∧
    (readToEnd_GLenum (encodeGLenum tag2)) = [tag2] ∧
    (shaderProgramToBinary d program2 (shaderProgramToBinary d program1 app).2).2.assets.files
      ShaderBinaryFileName = some bytes2 ∧
    (loadShaderBinary d
      (shaderProgramToBinary d program2 (shaderProgramToBinary d program1 app).2).2).2.calls =
      (shaderProgramToBinary d program2 (shaderProgramToBinary d program1 app).2).2.calls ++
        [.createProgram,
         .programBinary (d.createProgram
            (shaderProgramToBinary d program2 (shaderProgramToBinary d program1 app).2).2.calls)
            tag2 bytes2 (bytes2.length : Int),
         .getProgramiv_LINK_STATUS (d.createProgram
            (shaderProgramToBinary d program2
              (shaderProgramToBinary d program1 app).2).2.calls)] := by
  obtain ⟨hret1, -, -, -, hB1, hlim1⟩ := shaderProgramToBinary_returned d program1 app
    tag1 bytes1 hformats1 hlength1 hexport1 hwriteFormat hwriteBinary1
  have hwF : sizeofGLenum ≤
      (shaderProgramToBinary d program1 app).2.assets.writeLimit ShaderFormatFileName := by
    rw [hlim1]; exact hwriteFormat
  have hwB : bytes2.length ≤
      (shaderProgramToBinary d program1 app).2.assets.writeLimit ShaderBinaryFileName := by
    rw [hlim1]; exact hwriteBinary2
  obtain ⟨hret2, -, -, hF2, hB2, -⟩ := shaderProgramToBinary_returned d program2
    (shaderProgramToBinary d program1 app).2 tag2 bytes2 hformats2 hlength2 hexport2 hwF hwB
  have hround := store_then_load_calls d (shaderProgramToBinary d program1 app).2 program2 tag2 bytes2
    hformats2 hlength2 hexport2 hwF hwB
  have hread := readToEnd_GLenum_encodeGLenum_eq tag2
  exact ⟨hret1, hB1, hret2, hF2, rfl, hread, hB2, hround⟩

/-- C4 at a concrete input: program 5 exports tag 7 and five bytes, program
6 then exports tag 8 and two bytes; afterwards `shaderformat.bin` holds the
four bytes of 8, `shader.bin` holds the two bytes only, and the load submits
tag 8, bytes `6 7` and length 2. -/
theorem C4_overwrite_leaves_no_residue_witness :
    (shaderProgramToBinary twoProgramDriver 5 freshApp).2.assets.files ShaderBinaryFileName
      = some [1, 2, 3, 4, 5] ∧
    (shaderProgramToBinary twoProgramDriver 6
      (shaderProgramToBinary twoProgramDriver 5 freshApp).2).2.assets.files ShaderFormatFileName
      = some [8, 0, 0, 0] ∧
    (shaderProgramToBinary twoProgramDriver 6
      (shaderProgramToBinary twoProgramDriver 5 freshApp).2).2.assets.files ShaderBinaryFileName
      = some [6, 7] ∧
    (loadShaderBinary twoProgramDriver (shaderProgramToBinary twoProgramDriver 6
      (shaderProgramToBinary twoProgramDriver 5 freshApp).2).2).2.calls =
      (shaderProgramToBinary twoProgramDriver 6
        (shaderProgramToBinary twoProgramDriver 5 freshApp).2).2.calls ++
        [.createProgram, .programBinary 9 8 [6, 7] 2, .getProgramiv_LINK_STATUS 9] :=
  have h := C4_overwrite_leaves_no_residue twoProgramDriver freshApp 5 6 7 8
    [1, 2, 3, 4, 5] [6, 7]
    (by decide) (by decide) (by decide) (by decide) (by decide) (by decide)
    (by decide) (by decide) (by decide)
  ⟨h.2.1, h.2.2.2.1, h.2.2.2.2.2.2.1, h.2.2.2.2.2.2.2⟩

/-- C5 (incompatible artifact is raised exactly on a failed link).  With
`shaderformat.bin` present and holding at least four bytes and `shader.bin`
present, `loadShaderBinary` throws `InvalidDataError("Shader Binary not
Valid...")` if and only if the driver reports `GL_LINK_STATUS = GL_FALSE` for
the program rebuilt from the stored tag and bytes, and returns `true`
otherwise. -/
theorem C5_invalid_exactly_on_failed_link (d : Driver) (app : OpenGLESBinaryShaders)
    (b0 b1 b2 b3 : GLubyte) (rest bc : List GLubyte)
    (hformat : app.assets.files ShaderFormatFileName = some (b0 :: b1 :: b2 :: b3 :: rest))
    (hbinary : app.assets.files ShaderBinaryFileName = some bc) :
    ((loadShaderBinary d app).1 = .threw (.InvalidDataError shaderBinaryNotValidMessage) ↔
      (d.linkStatus
        (app.calls ++ [.createProgram,
          .programBinary (d.createProgram app.calls) (decodeGLenum b0 b1 b2 b3) bc
            (toGLsizei bc.length)])
        (d.createProgram app.calls)).val = GL_FALSE) ∧
    ((loadShaderBinary d app).1 = .returned true ↔
      (d.linkStatus
        (app.calls ++ [.createProgram,
          .programBinary (d.createProgram app.calls) (decodeGLenum b0 b1 b2 b3) bc
            (toGLsizei bc.length)])
        (d.createProgram app.calls)).val ≠ GL_FALSE) := by
  rw [loadShaderBinary_present d app _ bc (decodeGLenum b0 b1 b2 b3) hformat rfl hbinary]
  simp only
  split
  · rename_i h
    simp [h.symm]
  · rename_i h
    have h2 : ¬ (d.linkStatus
        (app.calls ++ [.createProgram,
          .programBinary (d.createProgram app.calls) (decodeGLenum b0 b1 b2 b3) bc
            (toGLsizei bc.length)])
        (d.createProgram app.calls)).val = GL_FALSE := fun e => h e.symm
    simp [h2]

/-- C5 at a concrete input: a complete cache and a driver that rejects it. -/
theorem C5_invalid_exactly_on_failed_link_witness :
    (loadShaderBinary rejectingDriver cachedApp).1
      = .threw (.InvalidDataError shaderBinaryNotValidMessage) :=
  (C5_invalid_exactly_on_failed_link rejectingDriver cachedApp 7 0 0 0 [] [0, 0, 0]
    (by decide) (by decide)).1.2 (by decide)

/-- C6 as stated fails: with a complete cache and a driver that rejects it,
`loadShaderBinary` throws `InvalidDataError`, and the program field, 0 before
the call, holds the handle 9 obtained from `CreateProgram` afterwards; no
`DeleteProgram` has been issued. -/
theorem C6_program_field_changed_on_failed_link :
    (loadShaderBinary rejectingDriver cachedApp).1
      = .threw (.InvalidDataError shaderBinaryNotValidMessage) ∧
    cachedApp.deviceResources.program = 0 ∧
    (loadShaderBinary rejectingDriver cachedApp).2.deviceResources.program = 9 ∧
    (loadShaderBinary rejectingDriver cachedApp).2.deviceResources.program
      ≠ cachedApp.deviceResources.program ∧
    Call.deleteProgram 9 ∉ (loadShaderBinary rejectingDriver cachedApp).2.calls := by
  decide

/-- C6 amended.  When the rebuilt program fails to link, `loadShaderBinary`
throws `InvalidDataError`; it has issued `CreateProgram`, `ProgramBinary` and
the link-status query and no `DeleteProgram`; the handle obtained from
`CreateProgram` is retained in `_deviceResources->program`; and
`~DeviceResources` run on that state deletes the handle when it is non-zero
and resets the field to 0. -/
theorem C6_failed_link_retains_handle (d : Driver) (app : OpenGLESBinaryShaders)
    (b0 b1 b2 b3 : GLubyte) (rest bc : List GLubyte)
    (hformat : app.assets.files ShaderFormatFileName = some (b0 :: b1 :: b2 :: b3 :: rest))
    (hbinary : app.assets.files ShaderBinaryFileName = some bc)
    (hlink : (d.linkStatus
        (app.calls ++ [.createProgram,
          .programBinary (d.createProgram app.calls) (decodeGLenum b0 b1 b2 b3) bc
            (toGLsizei bc.length)])
        (d.createProgram app.calls)).val = GL_FALSE) :
    (loadShaderBinary d app).1 = .threw (.InvalidDataError shaderBinaryNotValidMessage) ∧
    (loadShaderBinary d app).2.calls =
      app.calls ++ [.createProgram,
        .programBinary (d.createProgram app.calls) (decodeGLenum b0 b1 b2 b3) bc
          (toGLsizei bc.length),
        .getProgramiv_LINK_STATUS (d.createProgram app.calls)] ∧
    (loadShaderBinary d app).2.deviceResources.program = d.createProgram app.calls ∧
    (loadShaderBinary d app).2.assets = app.assets ∧
    DeviceResources.destroy (loadShaderBinary d app).2.deviceResources
        (loadShaderBinary d app).2.calls =
      (if d.createProgram app.calls ≠ 0 then
          (loadShaderBinary d app).2.calls ++ [.deleteProgram (d.createProgram app.calls)]
        else (loadShaderBinary d app).2.calls,
       { program := 0 }) := by
  rw [loadShaderBinary_present d app _ bc (decodeGLenum b0 b1 b2 b3) hformat rfl hbinary]
  simp [hlink, DeviceResources.destroy]

/-- C6 amended at a concrete input: the rejected cache leaves handle 9 in the
program field, and the destructor deletes it. -/
theorem C6_failed_link_retains_handle_witness :
    (loadShaderBinary rejectingDriver cachedApp).2.deviceResources.program = 9 ∧
    (DeviceResources.destroy (loadShaderBinary rejectingDriver cachedApp).2.deviceResources
        (loadShaderBinary rejectingDriver cachedApp).2.calls).1 =
      [.createProgram, .programBinary 9 7 [0, 0, 0] 3, .getProgramiv_LINK_STATUS 9,
        .deleteProgram 9] :=
  have h := C6_failed_link_retains_handle rejectingDriver cachedApp 7 0 0 0 [] [0, 0, 0]
    (by decide) (by decide) (by decide)
  ⟨h.2.2.1, by rw [h.2.2.2.2]; decide⟩

/-- C7 as stated fails.  With `shader.bin` on disk and `shaderformat.bin`
absent, `loadShaderBinary` returns `false` through the guard of line 141; and
with both files on disk and a driver that rejects the binary it throws
`InvalidDataError` instead of returning `true`. -/
theorem C7_binary_found_yet_not_true :
    binaryOnlyApp.assets.files ShaderBinaryFileName = some [1, 2, 3] ∧
    (loadShaderBinary sampleDriver binaryOnlyApp).1 = .returned false ∧
    cachedApp.assets.files ShaderBinaryFileName = some [0, 0, 0] ∧
    (loadShaderBinary rejectingDriver cachedApp).1
      = .threw (.InvalidDataError shaderBinaryNotValidMessage) := by
  decide

/-- C7 amended.  Provided `shaderformat.bin`, when present, holds at least
`sizeof(GLenum) = 4` bytes: `loadShaderBinary` returns `false` if and only if
`shaderformat.bin` or `shader.bin` was not found; when both were found it
returns `true` if and only if the driver reports a link status other than
`GL_FALSE` for the rebuilt program; and it returns `true` only when both were
found. -/
theorem C7_return_value_follows_both_files (d : Driver) (app : OpenGLESBinaryShaders)
    (hwidth : ∀ fc ∈ app.assets.files ShaderFormatFileName, sizeofGLenum ≤ fc.length) :
    ((loadShaderBinary d app).1 = .returned false ↔
      app.assets.files ShaderFormatFileName = none ∨
        app.assets.files ShaderBinaryFileName = none) ∧
    (∀ b0 b1 b2 b3 rest bc,
      app.assets.files ShaderFormatFileName = some (b0 :: b1 :: b2 :: b3 :: rest) →
      app.assets.files ShaderBinaryFileName = some bc →
      ((loadShaderBinary d app).1 = .returned true ↔
        (d.linkStatus
          (app.calls ++ [.createProgram,
            .programBinary (d.createProgram app.calls) (decodeGLenum b0 b1 b2 b3) bc
              (toGLsizei bc.length)])
          (d.createProgram app.calls)).val ≠ GL_FALSE)) ∧
    ((loadShaderBinary d app).1 = .returned true →
      (app.assets.files ShaderFormatFileName).isSome ∧
        (app.assets.files ShaderBinaryFileName).isSome) := by
  have hboth : ∀ b0 b1 b2 b3 rest bc,
      app.assets.files ShaderFormatFileName = some (b0 :: b1 :: b2 :: b3 :: rest) →
      app.assets.files ShaderBinaryFileName = some bc →
      ((loadShaderBinary d app).1 ≠ .returned false ∧
       ((loadShaderBinary d app).1 = .returned true ↔
        (d.linkStatus
          (app.calls ++ [.createProgram,
            .programBinary (d.createProgram app.calls) (decodeGLenum b0 b1 b2 b3) bc
              (toGLsizei bc.length)])
          (d.createProgram app.calls)).val ≠ GL_FALSE)) := by
    intro b0 b1 b2 b3 rest bc hF hB
    rw [loadShaderBinary_present d app _ bc (decodeGLenum b0 b1 b2 b3) hF rfl hB]
    simp only
    split
    · rename_i h
      simp [h.symm]
    · rename_i h
      have h2 : ¬ (d.linkStatus
          (app.calls ++ [.createProgram,
            .programBinary (d.createProgram app.calls) (decodeGLenum b0 b1 b2 b3) bc
              (toGLsizei bc.length)])
          (d.createProgram app.calls)).val = GL_FALSE := fun e => h e.symm
      simp [h2]
  cases hF : app.assets.files ShaderFormatFileName with
  | none =>
    have hload := loadShaderBinary_miss d app (Or.inl hF)
    refine ⟨by simp [hload], ?_, by simp [hload]⟩
    intro b0 b1 b2 b3 rest bc h
    simp at h
  | some fc =>
    have hlen : sizeofGLenum ≤ fc.length := hwidth fc hF
    match fc, hlen, hF with
    | b0 :: b1 :: b2 :: b3 :: rest, hlen, hF =>
      cases hB : app.assets.files ShaderBinaryFileName with
      | none =>
        have hload := loadShaderBinary_miss d app (Or.inr ⟨⟨_, hF, hlen⟩, hB⟩)
        refine ⟨by simp [hload], ?_, by simp [hload]⟩
        intro c0 c1 c2 c3 crest bc _ h
        simp at h
      | some bc =>
        have h := hboth b0 b1 b2 b3 rest bc hF hB
        refine ⟨by simpa using h.1, ?_, by simp⟩
        intro c0 c1 c2 c3 crest bc2 hF2 hB2
        exact (hboth c0 c1 c2 c3 crest bc2 (by rw [hF]; exact hF2) (by rw [hB]; exact hB2)).2

/-- C7 amended at a concrete input: a complete cache that the driver links is
loaded with result `true`. -/
theorem C7_return_value_follows_both_files_witness :
    (loadShaderBinary sampleDriver cachedApp).1 = .returned true :=
  ((C7_return_value_follows_both_files sampleDriver cachedApp (by decide)).2.1
    7 0 0 0 [] [0, 0, 0] (by decide) (by decide)).2 (by decide)

/-- C8 (compile only on a miss).  Let `issued` be the calls `initView` adds to
those issued before it.  The compiler call `createShaderProgram` is among them
if and only if the first `loadShaderBinary` (the one of line 242, run on the
state line 207 leaves) returns `false`, and so is the first call of
`shaderProgramToBinary` (the query of `GL_NUM_PROGRAM_BINARY_FORMATS`, which
only the store issues).  When the first load returns `true`, `initView` goes on
to line 251 and the asset store is the one before startup. -/
theorem C8_compile_and_store_only_on_miss (d : Driver) (app : OpenGLESBinaryShaders) :
    ∃ issued, (initView d app).2.calls = app.calls ++ issued ∧
      (Call.createShaderProgram ∈ issued ↔
        (loadShaderBinary d (renewDeviceResources app)).1 = .returned false) ∧
      (Call.getIntegerv_NUM_PROGRAM_BINARY_FORMATS ∈ issued ↔
        (loadShaderBinary d (renewDeviceResources app)).1 = .returned false) ∧
      ((loadShaderBinary d (renewDeviceResources app)).1 = .returned true →
        (initView d app).1 = .returned () ∧ (initView d app).2.assets = app.assets) := by
  obtain ⟨pre, hpre, hcp, hgp, hap⟩ := renewDeviceResources_calls app
  obtain ⟨l1, hl1, hc1, hg1, ha1⟩ := loadShaderBinary_calls d (renewDeviceResources app)
  rcases hfirst : loadShaderBinary d (renewDeviceResources app) with ⟨o, app1⟩
  rw [hfirst] at hl1 ha1
  simp only at hl1 ha1
  rw [hpre, List.append_assoc] at hl1
  rw [hap] at ha1
  cases o with
  | threw e =>
    refine ⟨pre ++ l1, ?_, ?_, ?_, ?_⟩
    · simp only [initView, hfirst]; exact hl1
    · simp [hc1, hcp]
    · simp [hg1, hgp]
    · intro h; simp at h
  | undefinedBehaviour =>
    refine ⟨pre ++ l1, ?_, ?_, ?_, ?_⟩
    · simp only [initView, hfirst]; exact hl1
    · simp [hc1, hcp]
    · simp [hg1, hgp]
    · intro h; simp at h
  | returned b =>
    cases b with
    | true =>
      refine ⟨pre ++ l1, ?_, ?_, ?_, ?_⟩
      · simp only [initView, hfirst]; exact hl1
      · simp [hc1, hcp]
      · simp [hg1, hgp]
      · intro _
        have hinit : initView d app = (.returned (), app1) := by
          simp only [initView, hfirst]
        rw [hinit]
        exact ⟨rfl, ha1⟩
    | false =>
      have hsame := loadShaderBinary_false_unchanged d
        (renewDeviceResources app) (by rw [hfirst])
      rw [hfirst] at hsame
      have happ1 : app1 = renewDeviceResources app := congrArg Prod.snd hsame
      obtain ⟨more, hmore, -⟩ := shaderProgramToBinary_calls d
        (d.createShaderProgram app1.calls) (app1.issue .createShaderProgram)
      have hcalls1 : app1.calls = app.calls ++ pre := by rw [happ1, hpre]
      have key : ∃ tail, (initView d app).2.calls =
          app.calls ++ (pre ++ Call.createShaderProgram ::
            Call.getIntegerv_NUM_PROGRAM_BINARY_FORMATS :: tail) := by
        simp only [initView, hfirst]
        rcases hstore : shaderProgramToBinary d (d.createShaderProgram app1.calls)
          (app1.issue .createShaderProgram) with ⟨o2, app2⟩
        rw [hstore] at hmore
        simp only [OpenGLESBinaryShaders.issue, hcalls1, List.append_assoc,
          List.singleton_append] at hmore
        cases o2 with
        | threw e => exact ⟨more, hmore⟩
        | undefinedBehaviour => exact ⟨more, hmore⟩
        | returned u =>
          cases u
          obtain ⟨l3, hl3, -, -, -⟩ := loadShaderBinary_calls d
            (app2.issue (.deleteProgram (d.createShaderProgram app1.calls)))
          rcases hsecond : loadShaderBinary d
            (app2.issue (.deleteProgram (d.createShaderProgram app1.calls))) with ⟨o3, app3⟩
          rw [hsecond] at hl3
          simp only [OpenGLESBinaryShaders.issue, hmore, List.append_assoc,
            List.singleton_append, List.cons_append] at hl3
          simp only [hsecond]
          cases o3 with
          | threw e => exact ⟨_, hl3⟩
          | undefinedBehaviour => exact ⟨_, hl3⟩
          | returned b3 => cases b3 <;> exact ⟨_, hl3⟩
      obtain ⟨tail, htail⟩ := key
      exact ⟨_, htail, by simp [hcp], by simp [hgp], by intro h; simp at h⟩

/-- C9 (the miss path reaches READY).  Let `c0` be the calls issued when
line 207 is done, `(renewDeviceResources app).calls`.  Suppose the first
`loadShaderBinary` of `initView` returns `false`, the compiler yields the
handle `d.createShaderProgram c0`, the driver supports at least one binary
format when the store asks and exports `(tag, bytes)` for that handle, both
writes are taken in full, and the driver links what it exported when it is
imported again.  Then `initView` reaches line 251 without throwing; the calls
it issues after `c0` are, in order, one compile, the three queries of one
store, the deletion of the compiled program, and the three calls of one
successful load of `(tag, bytes)`; `_deviceResources->program` is the handle
that load got from `CreateProgram`; and the two files hold the four bytes of
`tag` and `bytes`. -/
theorem C9_miss_path_reaches_ready (d : Driver) (app : OpenGLESBinaryShaders)
    (tag : GLenum) (bytes : List GLubyte)
    (hmiss : (loadShaderBinary d (renewDeviceResources app)).1
      = .returned false)
    (hformats : 1 ≤ (d.numProgramBinaryFormats ((renewDeviceResources app).calls ++ [.createShaderProgram])).val)
    (hlength : (d.programBinaryLength
      ((renewDeviceResources app).calls ++ [.createShaderProgram, .getIntegerv_NUM_PROGRAM_BINARY_FORMATS])
      (d.createShaderProgram (renewDeviceResources app).calls)).val = bytes.length)
    (hexport : d.getProgramBinary
      ((renewDeviceResources app).calls ++ [.createShaderProgram, .getIntegerv_NUM_PROGRAM_BINARY_FORMATS,
        .getProgramiv_PROGRAM_BINARY_LENGTH (d.createShaderProgram (renewDeviceResources app).calls)])
      (d.createShaderProgram (renewDeviceResources app).calls) bytes.length = (tag, bytes))
    (hwriteFormat : sizeofGLenum ≤ app.assets.writeLimit ShaderFormatFileName)
    (hwriteBinary : bytes.length ≤ app.assets.writeLimit ShaderBinaryFileName)
    (hlink : (d.linkStatus
      ((renewDeviceResources app).calls ++ missPathCalls (d.createShaderProgram (renewDeviceResources app).calls) bytes.length ++
        [.createProgram,
         .programBinary
            (d.createProgram
              ((renewDeviceResources app).calls ++ missPathCalls (d.createShaderProgram (renewDeviceResources app).calls) bytes.length))
            tag bytes (bytes.length : Int)])
      (d.createProgram
        ((renewDeviceResources app).calls ++ missPathCalls (d.createShaderProgram (renewDeviceResources app).calls) bytes.length))).val
      ≠ GL_FALSE) :
    (initView d app).1 = .returned () ∧
    (initView d app).2.calls =
      (renewDeviceResources app).calls ++ missPathCalls (d.createShaderProgram (renewDeviceResources app).calls) bytes.length ++
        [.createProgram,
         .programBinary
            (d.createProgram
              ((renewDeviceResources app).calls ++ missPathCalls (d.createShaderProgram (renewDeviceResources app).calls) bytes.length))
            tag bytes (bytes.length : Int),
         .getProgramiv_LINK_STATUS
            (d.createProgram
              ((renewDeviceResources app).calls ++ missPathCalls (d.createShaderProgram (renewDeviceResources app).calls) bytes.length))] ∧
    (initView d app).2.deviceResources.program =
      d.createProgram
        ((renewDeviceResources app).calls ++ missPathCalls (d.createShaderProgram (renewDeviceResources app).calls) bytes.length) ∧
    (initView d app).2.assets.files ShaderFormatFileName = some (encodeGLenum tag) ∧
    (initView d app).2.assets.files ShaderBinaryFileName = some bytes := by
  have hsame := loadShaderBinary_false_unchanged d _ hmiss
  have hstore := shaderProgramToBinary_returned d (d.createShaderProgram (renewDeviceResources app).calls)
    ((renewDeviceResources app).issue
      .createShaderProgram) tag bytes
    (by simpa [OpenGLESBinaryShaders.issue] using hformats)
    (by simpa [OpenGLESBinaryShaders.issue] using hlength)
    (by simpa [OpenGLESBinaryShaders.issue] using hexport)
    hwriteFormat hwriteBinary
  rcases hres : shaderProgramToBinary d (d.createShaderProgram (renewDeviceResources app).calls)
    ((renewDeviceResources app).issue
      .createShaderProgram) with ⟨o2, app2⟩
  rw [hres] at hstore
  obtain ⟨ho2, hcalls2, -, hF2, hB2, -⟩ := hstore
  simp only at ho2 hcalls2 hF2 hB2
  subst ho2
  have hdel : (app2.issue (.deleteProgram (d.createShaderProgram (renewDeviceResources app).calls))).calls =
      (renewDeviceResources app).calls ++ missPathCalls (d.createShaderProgram (renewDeviceResources app).calls) bytes.length := by
    simp [hcalls2, missPathCalls, OpenGLESBinaryShaders.issue]
  have htag : (readToEnd_GLenum (encodeGLenum tag)).head? = some tag := by
    simpa using readToEnd_GLenum_encodeGLenum tag []
  have hsize : toGLsizei bytes.length = (bytes.length : Int) := by
    apply toGLsizei_of_le
    have := (d.programBinaryLength
      ((renewDeviceResources app).calls ++ [.createShaderProgram, .getIntegerv_NUM_PROGRAM_BINARY_FORMATS])
      (d.createShaderProgram (renewDeviceResources app).calls)).property.2
    omega
  have hload := loadShaderBinary_present d
    (app2.issue (.deleteProgram (d.createShaderProgram (renewDeviceResources app).calls)))
    (encodeGLenum tag) bytes tag hF2 htag hB2
  rw [hdel, hsize] at hload
  have hlink' : ¬ GL_FALSE = (d.linkStatus
      ((renewDeviceResources app).calls ++ missPathCalls (d.createShaderProgram (renewDeviceResources app).calls) bytes.length ++
        [.createProgram,
         .programBinary
            (d.createProgram
              ((renewDeviceResources app).calls ++ missPathCalls (d.createShaderProgram (renewDeviceResources app).calls) bytes.length))
            tag bytes (bytes.length : Int)])
      (d.createProgram
        ((renewDeviceResources app).calls ++ missPathCalls (d.createShaderProgram (renewDeviceResources app).calls) bytes.length))).val :=
    fun e => hlink e.symm
  rw [if_neg hlink'] at hload
  have hinit : initView d app = (.returned (),
      { deviceResources :=
          { program := d.createProgram
              ((renewDeviceResources app).calls ++ missPathCalls (d.createShaderProgram (renewDeviceResources app).calls) bytes.length) },
        assets := app2.assets,
        calls := (renewDeviceResources app).calls ++ missPathCalls (d.createShaderProgram (renewDeviceResources app).calls) bytes.length ++
          [.createProgram,
           .programBinary
              (d.createProgram
                ((renewDeviceResources app).calls ++ missPathCalls (d.createShaderProgram (renewDeviceResources app).calls) bytes.length))
              tag bytes (bytes.length : Int),
           .getProgramiv_LINK_STATUS
              (d.createProgram
                ((renewDeviceResources app).calls ++
                  missPathCalls (d.createShaderProgram (renewDeviceResources app).calls) bytes.length))] }) := by
    simp only [initView, hsame, hres, hload]
    rfl
  rw [hinit]
  exact ⟨rfl, rfl, rfl, hF2, hB2⟩

/-- C9 at a concrete input: `initView` entered with the program handle 7
still held, an empty cache and `sampleDriver`; line 207 deletes handle 7 and
the miss path follows. -/
theorem C9_miss_path_reaches_ready_witness :
    (initView sampleDriver relaunchedApp).1 = .returned () ∧
    (initView sampleDriver relaunchedApp).2.calls =
      [.deleteProgram 7, .createShaderProgram, .getIntegerv_NUM_PROGRAM_BINARY_FORMATS,
       .getProgramiv_PROGRAM_BINARY_LENGTH 5, .getProgramBinary 5 3, .deleteProgram 5,
       .createProgram, .programBinary 9 7 [1, 2, 3] 3, .getProgramiv_LINK_STATUS 9] ∧
    (initView sampleDriver relaunchedApp).2.deviceResources.program = 9 ∧
    (initView sampleDriver relaunchedApp).2.assets.files ShaderFormatFileName
      = some [7, 0, 0, 0] ∧
    (initView sampleDriver relaunchedApp).2.assets.files ShaderBinaryFileName
      = some [1, 2, 3] :=
  C9_miss_path_reaches_ready sampleDriver relaunchedApp 7 [1, 2, 3]
    (by decide) (by decide) (by decide) (by decide) (by decide) (by decide) (by decide)

/-- C10 (tag read is defined exactly for a full-width format file).  For a
present `shaderformat.bin` with content `fc`: `readToEnd<GLenum>` has
`fc.length / 4` elements; the element-0 read of line 143 succeeds if and only
if `fc` holds at least `sizeof(GLenum) = 4` bytes; when it does, the tag is the
integer whose bytes are the first four of `fc`, the rest being ignored, and it
is the tag `loadShaderBinary` hands to `ProgramBinary`; and with 0 to 3 bytes
the read is out of bounds, so the call ends in undefined behaviour with the
state untouched instead of returning `false`. -/
theorem C10_tag_read_defined_for_full_width_file (d : Driver) (app : OpenGLESBinaryShaders)
    (fc : List GLubyte)
    (hformat : app.assets.files ShaderFormatFileName = some fc) :
    (readToEnd_GLenum fc).length = fc.length / sizeofGLenum ∧
    ((readToEnd_GLenum fc).head?.isSome ↔ sizeofGLenum ≤ fc.length) ∧
    (∀ b0 b1 b2 b3 rest, fc = b0 :: b1 :: b2 :: b3 :: rest →
      (readToEnd_GLenum fc).head? = some (decodeGLenum b0 b1 b2 b3) ∧
      (decodeGLenum b0 b1 b2 b3).val
        = b0.val + 256 * b1.val + 65536 * b2.val + 16777216 * b3.val ∧
      ∀ bc, app.assets.files ShaderBinaryFileName = some bc →
        Call.programBinary (d.createProgram app.calls) (decodeGLenum b0 b1 b2 b3) bc
          (toGLsizei bc.length) ∈ (loadShaderBinary d app).2.calls) ∧
    ((loadShaderBinary d app).1 = .undefinedBehaviour ↔ fc.length < sizeofGLenum) ∧
    (fc.length < sizeofGLenum → loadShaderBinary d app = (.undefinedBehaviour, app)) := by
  have hshort : fc.length < sizeofGLenum → loadShaderBinary d app = (.undefinedBehaviour, app) := by
    intro h
    simp [loadShaderBinary, getAssetStream, hformat, readToEnd_GLenum_head_none fc h]
  refine ⟨readToEnd_GLenum_length fc, ?_, ?_, ?_, hshort⟩
  · constructor
    · intro h
      by_contra hlt
      rw [readToEnd_GLenum_head_none fc (by simpa using hlt)] at h
      simp at h
    · intro h
      match fc, h with
      | b0 :: b1 :: b2 :: b3 :: rest, _ => simp [readToEnd_GLenum]
  · intro b0 b1 b2 b3 rest hfc
    subst hfc
    refine ⟨rfl, rfl, ?_⟩
    intro bc hbc
    rw [loadShaderBinary_present d app _ bc (decodeGLenum b0 b1 b2 b3) hformat rfl hbc]
    simp
  · constructor
    · intro h
      by_contra hge
      match fc, hformat, hge, h with
      | [], _, hge, _ => simp [sizeofGLenum] at hge
      | [_], _, hge, _ => simp [sizeofGLenum] at hge
      | [_, _], _, hge, _ => simp [sizeofGLenum] at hge
      | [_, _, _], _, hge, _ => simp [sizeofGLenum] at hge
      | b0 :: b1 :: b2 :: b3 :: rest, hformat, _, h =>
        cases hB : app.assets.files ShaderBinaryFileName with
        | none =>
          simp [loadShaderBinary, getAssetStream, hformat, hB, readToEnd_GLenum] at h
        | some bc =>
          rw [loadShaderBinary_present d app _ bc (decodeGLenum b0 b1 b2 b3) hformat rfl hB] at h
          simp only at h
          split at h <;> simp at h
    · intro h
      rw [hshort h]

/-- C10 at a concrete input: a three-byte `shaderformat.bin` next to a
`shader.bin`; the load ends in undefined behaviour. -/
theorem C10_tag_read_defined_for_full_width_file_witness :
    (loadShaderBinary sampleDriver shortFormatApp).1 = .undefinedBehaviour :=
  (C10_tag_read_defined_for_full_width_file sampleDriver shortFormatApp [7, 0, 0]
    (by decide)).2.2.2.1.2 (by decide)

end BinaryShaders
